import Mathlib

/-!
Shallow embedding of the pngme chunk core (`src/chunk_type.rs`, `src/chunk.rs`).

Bytes are modelled as `Nat` (a byte value is `< 256` where it matters; this is
stated as a hypothesis rather than baked into the type). Machine integers are
modelled as `Nat` with explicit `% 4294967296` at the points where the Rust
code performs a `usize → u32` cast. Rust `Result` becomes `Except`/`ParseResult`,
and panics of the source (out-of-range slice indexing in `Chunk::try_from`)
become the explicit `ParseResult.crash` outcome.
-/

set_option maxRecDepth 1000000

/-! ### CRC-32 (ISO-HDLC / zlib / PNG variant)

Model of the external `crc` crate call
`Crc::<u32>::new(&CRC_32_ISO_HDLC).checksum(..)` used by `Chunk::compute_crc`:
the reflected CRC-32 with polynomial `0xEDB88320`, initial value `0xFFFFFFFF`
and final xor `0xFFFFFFFF`. Its published check value on the ASCII string
"123456789" is `0xCBF43926`, proved below. -/

/-- One bit-step of the reflected CRC-32: shift right, conditionally xor the
reflected polynomial `0xEDB88320`. -/
def crc32_step (r : Nat) : Nat :=
  if r % 2 = 1 then (r / 2) ^^^ 0xEDB88320 else r / 2

/-- Iterate `crc32_step` a given number of times. -/
def crc32_steps : Nat → Nat → Nat
  | 0, r => r
  | n + 1, r => crc32_steps n (crc32_step r)

/-- Absorb one input byte into the CRC register: xor it in, then eight
bit-steps. -/
def crc32_byte_upd (r b : Nat) : Nat := crc32_steps 8 (r ^^^ b)

/-- CRC-32/ISO-HDLC over a byte list. -/
def crc32 (l : List Nat) : Nat :=
  (l.foldl crc32_byte_upd 0xFFFFFFFF) ^^^ 0xFFFFFFFF

/-! ### Big-endian / little-endian u32 byte conversions

Models of `u32::to_be_bytes`, `u32::from_be_bytes` and `u32::from_le_bytes`
(the latter two are applied in the source only to slices of length exactly 4). -/

/-- Model of `u32::to_be_bytes` for `n < 2^32`. -/
def u32_be_bytes (n : Nat) : List Nat :=
  [n / 16777216 % 256, n / 65536 % 256, n / 256 % 256, n % 256]

/-- Model of `u32::from_be_bytes` on a 4-byte list. -/
def u32_from_be (l : List Nat) : Nat :=
  l.getD 0 0 * 16777216 + l.getD 1 0 * 65536 + l.getD 2 0 * 256 + l.getD 3 0

/-- Model of `u32::from_le_bytes` on a 4-byte list. -/
def u32_from_le (l : List Nat) : Nat :=
  l.getD 3 0 * 16777216 + l.getD 2 0 * 65536 + l.getD 1 0 * 256 + l.getD 0 0

/-! ### ChunkType (`src/chunk_type.rs`) -/

/-- `pub struct ChunkType([u8; 4]);` — the four raw bytes of the type code. -/
structure ChunkType where
  b0 : Nat
  b1 : Nat
  b2 : Nat
  b3 : Nat
deriving DecidableEq

/-- `ChunkType::bytes` — the raw 4-byte code, as a list. -/
def ChunkType.bytes (t : ChunkType) : List Nat := [t.b0, t.b1, t.b2, t.b3]

/-- `ChunkType::is_valid_byte`: `(byte >= 65 && byte <= 90) || (byte >= 97 && byte <= 122)`. -/
def ChunkType.is_valid_byte (b : Nat) : Bool :=
  (decide (65 ≤ b) && decide (b ≤ 90)) || (decide (97 ≤ b) && decide (b ≤ 122))

/-- `ChunkType::bytes_are_alphanumeric` — the for-loop over `self.0` that
returns `false` at the first byte failing `is_valid_byte`. -/
def ChunkType.bytes_are_alphanumeric (t : ChunkType) : Bool :=
  t.bytes.all ChunkType.is_valid_byte

/-- `ChunkType::is_reserved_bit_valid`: `self.0[2] & 0b0010_0000 == 0`. -/
def ChunkType.is_reserved_bit_valid (t : ChunkType) : Bool :=
  t.b2 &&& 32 == 0

/-- `ChunkType::is_valid`: `self.bytes_are_alphanumeric() && self.is_reserved_bit_valid()`. -/
def ChunkType.is_valid (t : ChunkType) : Bool :=
  t.bytes_are_alphanumeric && t.is_reserved_bit_valid

/-- Rebuild a `ChunkType` from a list holding exactly its 4 bytes (the
`TryFrom<[u8; 4]>` implementation, which never fails). -/
def ChunkType.ofList (l : List Nat) : ChunkType :=
  ⟨l.getD 0 0, l.getD 1 0, l.getD 2 0, l.getD 3 0⟩

/-- `ChunkType::from_str`: convert the string's bytes to `[u8; 4]` (an error
if the length is not 4, via `?`), then require `bytes_are_alphanumeric`;
the reserved bit is deliberately not checked. The input is the UTF-8 byte
list of the Rust `&str`. -/
def ChunkType.fromStr (s : List Nat) : Except String ChunkType :=
  match s with
  | [a, b, c, d] =>
    let t : ChunkType := ⟨a, b, c, d⟩
    if t.bytes_are_alphanumeric then Except.ok t
    else Except.error "Invalid type chunk code supplied"
  | _ => Except.error "could not convert slice to an array of length 4"

/-! ### Chunk (`src/chunk.rs`) -/

/-- `pub struct Chunk { chunk_type: ChunkType, data: Vec<u8> }`. -/
structure Chunk where
  chunk_type : ChunkType
  data : List Nat
deriving DecidableEq

/-- `Chunk::new` — unconditional construction. -/
def Chunk.new (chunk_type : ChunkType) (data : List Nat) : Chunk :=
  ⟨chunk_type, data⟩

/-- `Chunk::length`: `self.data.len() as u32` — note the `usize → u32` cast,
modelled as `% 4294967296`. -/
def Chunk.length (c : Chunk) : Nat := c.data.length % 4294967296

/-- `Chunk::compute_crc`: CRC-32/ISO-HDLC over type bytes followed by data. -/
def Chunk.compute_crc (chunk_type : ChunkType) (data : List Nat) : Nat :=
  crc32 (chunk_type.bytes ++ data)

/-- `Chunk::crc`: `Chunk::compute_crc(&self.chunk_type, &self.data)`. -/
def Chunk.crc (c : Chunk) : Nat := Chunk.compute_crc c.chunk_type c.data

/-- `Chunk::as_bytes`: length (big-endian), type bytes, data, crc (big-endian),
chained in that order. -/
def Chunk.as_bytes (c : Chunk) : List Nat :=
  u32_be_bytes c.length ++ c.chunk_type.bytes ++ c.data ++ u32_be_bytes c.crc

/-- Outcome of `Chunk::try_from(&[u8])`. `crash` models a Rust panic (the
source indexes `value[..4]`, `value[4..8]`, `value[8..offset]` without any
prior length check, and slice indexing out of range aborts the process);
`error` models `Err(..)`; `ok` models `Ok(..)`. -/
inductive ParseResult where
  | crash : String → ParseResult
  | error : String → ParseResult
  | ok : Chunk → ParseResult
deriving DecidableEq

/-- `Chunk::try_from(&[u8])`, including its panicking behaviour on buffers
shorter than 12 bytes. For `value.length < 4` the slice `value[..4]` panics;
for `value.length < 8` the slice `value[4..8]` panics; for
`value.length < 12` we have `offset = value.len() - 4 < 8` and the slice
`value[8..offset]` panics. Otherwise the declared length is read from bytes
0..4 (interpreted both big- and little-endian), the type from bytes 4..8,
the data from bytes 8..offset, the declared crc from the last 4 bytes (both
endiannesses), and the two validations run in source order. -/
def Chunk.tryFrom (value : List Nat) : ParseResult :=
  if value.length < 4 then
    ParseResult.crash "range end index 4 out of range for slice"
  else if value.length < 8 then
    ParseResult.crash "range end index 8 out of range for slice"
  else if value.length < 12 then
    ParseResult.crash "slice index starts at 8 but ends before it"
  else
    let b_len := value.take 4
    let be_len := u32_from_be b_len
    let le_len := u32_from_le b_len
    let chunk_type := ChunkType.ofList ((value.drop 4).take 4)
    let offset := value.length - 4
    let data := (value.drop 8).take (offset - 8)
    let b_crc := value.drop offset
    let be_crc := u32_from_be b_crc
    let le_crc := u32_from_le b_crc
    let len := data.length % 4294967296
    if ¬(len = be_len ∨ len = le_len) then
      ParseResult.error "Data does not have the specified length"
    else
      let crc := Chunk.compute_crc chunk_type data
      if ¬(crc = be_crc ∨ crc = le_crc) then
        ParseResult.error "Data does not match provided crc"
      else
        ParseResult.ok ⟨chunk_type, data⟩

/-! ### Concrete fixtures -/

/-- The type code "RuSt" (bytes 82, 117, 83, 116). -/
def rustType : ChunkType := ⟨82, 117, 83, 116⟩

/-- The byte list of the ASCII text
"This is where your secret message will be!". -/
def goldenPayload : List Nat :=
  [84, 104, 105, 115, 32, 105, 115, 32, 119, 104, 101, 114, 101, 32, 121,
   111, 117, 114, 32, 115, 101, 99, 114, 101, 116, 32, 109, 101, 115, 115,
   97, 103, 101, 32, 119, 105, 108, 108, 32, 98, 101, 33]

/-- The behaviour C3 claims for `Chunk::try_from` on a buffer `v` reaching
validation, with "actual payload size" = `v.length - 12` (the size of the
payload region the parser extracts): a length-mismatch error iff the payload
size equals neither the big- nor the little-endian reading of bytes 0..4;
given the length check passes, a checksum-mismatch error iff the CRC computed
over type bytes ++ payload equals neither the big- nor the little-endian
reading of the last 4 bytes; and success (with the extracted type and payload)
when both checks pass. -/
def dualValidationSpec (v : List Nat) : Prop :=
  (Chunk.tryFrom v = ParseResult.error "Data does not have the specified length" ↔
    ¬(v.length - 12 = u32_from_be (v.take 4) ∨ v.length - 12 = u32_from_le (v.take 4))) ∧
  ((v.length - 12 = u32_from_be (v.take 4) ∨ v.length - 12 = u32_from_le (v.take 4)) →
    ((Chunk.tryFrom v = ParseResult.error "Data does not match provided crc" ↔
      ¬(Chunk.compute_crc (ChunkType.ofList ((v.drop 4).take 4))
            ((v.drop 8).take (v.length - 12)) = u32_from_be (v.drop (v.length - 4))
        ∨ Chunk.compute_crc (ChunkType.ofList ((v.drop 4).take 4))
            ((v.drop 8).take (v.length - 12)) = u32_from_le (v.drop (v.length - 4)))) ∧
     ((Chunk.compute_crc (ChunkType.ofList ((v.drop 4).take 4))
            ((v.drop 8).take (v.length - 12)) = u32_from_be (v.drop (v.length - 4))
        ∨ Chunk.compute_crc (ChunkType.ofList ((v.drop 4).take 4))
            ((v.drop 8).take (v.length - 12)) = u32_from_le (v.drop (v.length - 4))) →
       Chunk.tryFrom v = ParseResult.ok ⟨ChunkType.ofList ((v.drop 4).take 4),
                                         (v.drop 8).take (v.length - 12)⟩)))

/-- Buffer with a 2^32-byte payload, declared length field 0 and declared
checksum field 0. -/
def hugeBuffer : List Nat :=
  [0, 0, 0, 0] ++ (rustType.bytes ++ (List.replicate 4294967296 0 ++ [0, 0, 0, 0]))

/-- Sanity: `goldenPayload` really is the byte encoding of the golden text. -/
theorem goldenPayload_eq_text :
    goldenPayload =
      "This is where your secret message will be!".data.map Char.toNat := by
  decide

/-! ### Helper lemmas -/

lemma crc32_step_lt {r : Nat} (h : r < 2 ^ 32) : crc32_step r < 2 ^ 32 := by
  unfold crc32_step
  split
  · exact Nat.xor_lt_two_pow (by omega) (by norm_num)
  · omega

lemma crc32_steps_lt (n : Nat) : ∀ {r : Nat}, r < 2 ^ 32 → crc32_steps n r < 2 ^ 32 := by
  induction n with
  | zero => intro r h; exact h
  | succ n ih =>
    intro r h
    show crc32_steps n (crc32_step r) < 2 ^ 32
    exact ih (crc32_step_lt h)

lemma crc32_foldl_lt (l : List Nat) :
    ∀ {r : Nat}, r < 2 ^ 32 → (∀ b ∈ l, b < 2 ^ 32) →
      List.foldl crc32_byte_upd r l < 2 ^ 32 := by
  induction l with
  | nil => intro r h _; simpa using h
  | cons b l ih =>
    intro r h hb
    rw [List.foldl_cons]
    refine ih ?_ (fun x hx => hb x (by simp [hx]))
    unfold crc32_byte_upd
    exact crc32_steps_lt 8 (Nat.xor_lt_two_pow h (hb b (by simp)))

lemma crc32_lt (l : List Nat) (h : ∀ b ∈ l, b < 256) : crc32 l < 4294967296 := by
  have hb : ∀ b ∈ l, b < 2 ^ 32 := fun b hbl => lt_of_lt_of_le (h b hbl) (by norm_num)
  have hf : List.foldl crc32_byte_upd 0xFFFFFFFF l < 2 ^ 32 :=
    crc32_foldl_lt l (by norm_num) hb
  have hxor : (List.foldl crc32_byte_upd 0xFFFFFFFF l) ^^^ 0xFFFFFFFF < 2 ^ 32 :=
    Nat.xor_lt_two_pow hf (by norm_num)
  unfold crc32
  omega

lemma length_u32_be_bytes (n : Nat) : (u32_be_bytes n).length = 4 := rfl

lemma u32_from_be_u32_be_bytes {n : Nat} (h : n < 4294967296) :
    u32_from_be (u32_be_bytes n) = n := by
  simp only [u32_be_bytes, u32_from_be, List.getD_cons_zero, List.getD_cons_succ]
  omega

lemma ChunkType.length_bytes (t : ChunkType) : t.bytes.length = 4 := rfl

lemma ChunkType.ofList_bytes (t : ChunkType) : ChunkType.ofList t.bytes = t := by
  cases t; rfl

lemma Chunk.length_def (c : Chunk) : Chunk.length c = c.data.length % 4294967296 := rfl

lemma length_as_bytes (c : Chunk) : (Chunk.as_bytes c).length = 12 + c.data.length := by
  show (u32_be_bytes c.length ++ c.chunk_type.bytes ++ c.data ++ u32_be_bytes c.crc).length =
    12 + c.data.length
  simp only [List.length_append, length_u32_be_bytes, ChunkType.length_bytes]
  omega

/-- `Chunk::try_from` on a buffer of length at least 12, written with the four
regions of the buffer extracted explicitly. -/
lemma Chunk.tryFrom_eq_of_ge12 (v : List Nat) (h : 12 ≤ v.length) :
    Chunk.tryFrom v =
      (if ¬(((v.drop 8).take (v.length - 12)).length % 4294967296 = u32_from_be (v.take 4)
            ∨ ((v.drop 8).take (v.length - 12)).length % 4294967296 = u32_from_le (v.take 4)) then
        ParseResult.error "Data does not have the specified length"
      else if ¬(Chunk.compute_crc (ChunkType.ofList ((v.drop 4).take 4))
                    ((v.drop 8).take (v.length - 12)) = u32_from_be (v.drop (v.length - 4))
            ∨ Chunk.compute_crc (ChunkType.ofList ((v.drop 4).take 4))
                    ((v.drop 8).take (v.length - 12)) = u32_from_le (v.drop (v.length - 4))) then
        ParseResult.error "Data does not match provided crc"
      else ParseResult.ok ⟨ChunkType.ofList ((v.drop 4).take 4),
                           (v.drop 8).take (v.length - 12)⟩) := by
  have h4 : ¬ v.length < 4 := by omega
  have h8 : ¬ v.length < 8 := by omega
  have h12 : ¬ v.length < 12 := by omega
  have harith : v.length - 4 - 8 = v.length - 12 := by omega
  unfold Chunk.tryFrom
  rw [if_neg h4, if_neg h8, if_neg h12]
  simp only [harith]

/-- Payload size extracted by `Chunk::try_from` from a buffer of length ≥ 12. -/
lemma length_payload_region (v : List Nat) (h : 12 ≤ v.length) :
    ((v.drop 8).take (v.length - 12)).length = v.length - 12 := by
  simp only [List.length_take, List.length_drop]
  omega

/-- `Chunk::try_from` on a buffer presented as its four regions:
4 length bytes, the type bytes, the payload, 4 checksum bytes. -/
lemma Chunk.tryFrom_structured (t : ChunkType) (lb d cb : List Nat)
    (hlb : lb.length = 4) (hcb : cb.length = 4) :
    Chunk.tryFrom (lb ++ (t.bytes ++ (d ++ cb))) =
      (if ¬(d.length % 4294967296 = u32_from_be lb
            ∨ d.length % 4294967296 = u32_from_le lb) then
        ParseResult.error "Data does not have the specified length"
      else if ¬(Chunk.compute_crc t d = u32_from_be cb
            ∨ Chunk.compute_crc t d = u32_from_le cb) then
        ParseResult.error "Data does not match provided crc"
      else ParseResult.ok ⟨t, d⟩) := by
  set v : List Nat := lb ++ (t.bytes ++ (d ++ cb)) with hv
  have hlen : v.length = 12 + d.length := by
    simp [hv, List.length_append, hlb, hcb, ChunkType.length_bytes]
    omega
  have htake4 : v.take 4 = lb := List.take_left' hlb
  have hdrop4 : v.drop 4 = t.bytes ++ (d ++ cb) := List.drop_left' hlb
  have htype : (v.drop 4).take 4 = t.bytes := by
    rw [hdrop4]; exact List.take_left' (ChunkType.length_bytes t)
  have hdrop8 : v.drop 8 = d ++ cb := by
    have : v.drop 8 = (v.drop 4).drop 4 := by
      rw [List.drop_drop]
    rw [this, hdrop4]
    exact List.drop_left' (ChunkType.length_bytes t)
  have hdata : (v.drop 8).take (v.length - 12) = d := by
    rw [hdrop8, hlen, Nat.add_sub_cancel_left]
    exact List.take_left d cb
  have hcrcb : v.drop (v.length - 4) = cb := by
    have harith : v.length - 4 = 8 + d.length := by omega
    rw [harith, ← List.drop_drop, hdrop8]
    exact List.drop_left' rfl
  rw [Chunk.tryFrom_eq_of_ge12 v (by omega), htake4, htype, hdata, hcrcb,
    ChunkType.ofList_bytes]

/-! ### Claim theorems -/

/-- C1: Round trip — for every type code whose 4 bytes are alphanumeric ASCII
and every payload byte sequence, parsing (`Chunk::try_from`) the serialization
(`Chunk::as_bytes`) of `Chunk::new(t, p)` succeeds and yields a chunk with the
original type and payload. -/
theorem c1_round_trip (t : ChunkType) (p : List Nat)
    (halpha : t.bytes_are_alphanumeric = true) (hp : ∀ b ∈ p, b < 256) :
    Chunk.tryFrom (Chunk.as_bytes (Chunk.new t p)) = ParseResult.ok (Chunk.new t p) := by
  have hbytes : Chunk.as_bytes (Chunk.new t p) =
      u32_be_bytes (Chunk.length (Chunk.new t p)) ++
        (t.bytes ++ (p ++ u32_be_bytes (Chunk.crc (Chunk.new t p)))) := by
    simp [Chunk.as_bytes, Chunk.new, List.append_assoc]
  rw [hbytes,
    Chunk.tryFrom_structured t _ p _ (length_u32_be_bytes _) (length_u32_be_bytes _)]
  have hlen_eq : p.length % 4294967296 =
      u32_from_be (u32_be_bytes (Chunk.length (Chunk.new t p))) := by
    rw [show Chunk.length (Chunk.new t p) = p.length % 4294967296 from rfl,
      u32_from_be_u32_be_bytes (Nat.mod_lt p.length (by norm_num))]
  have hcrc_lt : Chunk.compute_crc t p < 4294967296 := by
    unfold Chunk.compute_crc
    apply crc32_lt
    intro b hb
    rcases List.mem_append.1 hb with hmem | hmem
    · have hv := (List.all_eq_true.1 halpha) b hmem
      unfold ChunkType.is_valid_byte at hv
      simp only [Bool.or_eq_true, Bool.and_eq_true, decide_eq_true_eq] at hv
      omega
    · exact hp b hmem
  have hcrc_eq : Chunk.compute_crc t p =
      u32_from_be (u32_be_bytes (Chunk.crc (Chunk.new t p))) := by
    rw [show Chunk.crc (Chunk.new t p) = Chunk.compute_crc t p from rfl,
      u32_from_be_u32_be_bytes hcrc_lt]
  rw [if_neg (not_not_intro (Or.inl hlen_eq)),
    if_neg (not_not_intro (Or.inl hcrc_eq))]
  rfl

/-- C1 witness: the round trip at the concrete type "RuSt" and payload [1, 2, 3]. -/
theorem c1_round_trip_witness :
    ChunkType.bytes_are_alphanumeric rustType = true ∧
    (∀ b ∈ ([1, 2, 3] : List Nat), b < 256) ∧
    Chunk.tryFrom (Chunk.as_bytes (Chunk.new rustType [1, 2, 3])) =
      ParseResult.ok (Chunk.new rustType [1, 2, 3]) :=
  ⟨by decide, by decide, c1_round_trip rustType [1, 2, 3] (by decide) (by decide)⟩

/-- C2 (code evidence): buffers shorter than 12 bytes make `Chunk::try_from`
abort on out-of-range slice indexing instead of returning an inspectable
error: the empty buffer, a 5-byte buffer and an 11-byte buffer all crash. -/
theorem c2_short_buffer_crashes :
    Chunk.tryFrom [] = ParseResult.crash "range end index 4 out of range for slice" ∧
    Chunk.tryFrom (List.replicate 5 0) =
      ParseResult.crash "range end index 8 out of range for slice" ∧
    Chunk.tryFrom (List.replicate 11 0) =
      ParseResult.crash "slice index starts at 8 but ends before it" := by
  decide

/-- C5: `Chunk::crc` is CRC-32/ISO-HDLC over the 4 type-code bytes followed by
the payload bytes, in that order; `crc32` is pinned to the ISO-HDLC (zlib/PNG)
variant by its published check value 0xCBF43926 on the ASCII string
"123456789". Equal (type, payload) pairs yield equal checksums because the
checksum is a function of exactly those two fields. -/
theorem c5_checksum_is_crc32 :
    (∀ t p, Chunk.crc (Chunk.new t p) = crc32 (t.bytes ++ p)) ∧
    (∀ c : Chunk, Chunk.crc c = crc32 (c.chunk_type.bytes ++ c.data)) ∧
    crc32 [49, 50, 51, 52, 53, 54, 55, 56, 57] = 3421780262 :=
  ⟨fun _ _ => rfl, fun _ => rfl, by decide⟩

/-- C9 counterexample: the golden payload text
"This is where your secret message will be!" has 42 bytes, not 44 as the
claim asserts. -/
theorem c9_counterexample :
    goldenPayload.length = 42 ∧ goldenPayload.length ≠ 44 := by
  decide

/-- C9 (amended to the actual 42-byte payload): for the chunk with type "RuSt"
and the golden payload, the checksum is 2882656334, serialization produces
exactly [length BE][82,117,83,116][payload][checksum BE], and parsing that
byte sequence reproduces the same chunk. -/
theorem c9_golden_fixture :
    Chunk.crc (Chunk.new rustType goldenPayload) = 2882656334 ∧
    Chunk.as_bytes (Chunk.new rustType goldenPayload) =
      u32_be_bytes 42 ++ rustType.bytes ++ goldenPayload ++ u32_be_bytes 2882656334 ∧
    Chunk.tryFrom
        (u32_be_bytes 42 ++ rustType.bytes ++ goldenPayload ++ u32_be_bytes 2882656334) =
      ParseResult.ok (Chunk.new rustType goldenPayload) ∧
    goldenPayload.length = 42 := by
  decide

/-- C10: parse is not the inverse of serialization on all accepted inputs:
a buffer whose length field is encoded little-endian parses successfully, but
re-serializing the resulting chunk emits the length big-endian, so the bytes
differ. -/
theorem c10_parse_not_inverse :
    ∃ b c, Chunk.tryFrom b = ParseResult.ok c ∧ Chunk.as_bytes c ≠ b :=
  ⟨[3, 0, 0, 0] ++ rustType.bytes ++ [1, 2, 3] ++
      u32_be_bytes (Chunk.compute_crc rustType [1, 2, 3]),
   Chunk.new rustType [1, 2, 3], by decide, by decide⟩

/-- C3 (amended with the bound `v.length < 2^32 + 12`, forced by the
`usize → u32` cast on `data.len()`): on every buffer of length at least 12
and payload shorter than 2^32 bytes, `Chunk::try_from` validates exactly as
`dualValidationSpec` states. -/
theorem c3_dual_endianness (v : List Nat) (h12 : 12 ≤ v.length)
    (hlt : v.length < 4294967308) : dualValidationSpec v := by
  have hplen := length_payload_region v h12
  have hmod : (v.length - 12) % 4294967296 = v.length - 12 :=
    Nat.mod_eq_of_lt (by omega)
  unfold dualValidationSpec
  rw [Chunk.tryFrom_eq_of_ge12 v h12, hplen, hmod]
  by_cases hlen : (v.length - 12 = u32_from_be (v.take 4)
      ∨ v.length - 12 = u32_from_le (v.take 4))
  · rw [if_neg (not_not_intro hlen)]
    by_cases hcrc : (Chunk.compute_crc (ChunkType.ofList ((v.drop 4).take 4))
          ((v.drop 8).take (v.length - 12)) = u32_from_be (v.drop (v.length - 4))
        ∨ Chunk.compute_crc (ChunkType.ofList ((v.drop 4).take 4))
          ((v.drop 8).take (v.length - 12)) = u32_from_le (v.drop (v.length - 4)))
    · rw [if_neg (not_not_intro hcrc)]
      exact ⟨by simp [hlen], fun _ => ⟨by simp [hcrc], fun _ => rfl⟩⟩
    · rw [if_pos hcrc]
      refine ⟨by simp [hlen], fun _ => ⟨by simp [hcrc], fun h => absurd h hcrc⟩⟩
  · rw [if_pos hlen]
    refine ⟨by simp [hlen], fun h => absurd h hlen⟩

/-- C3 witness: the theorem applied to the 12-byte all-zero buffer (empty
payload, declared length 0, declared checksum 0). -/
theorem c3_dual_endianness_witness :
    12 ≤ (List.replicate 12 0).length ∧
    (List.replicate 12 0).length < 4294967308 ∧
    dualValidationSpec (List.replicate 12 0) :=
  ⟨by decide, by decide, c3_dual_endianness (List.replicate 12 0) (by decide) (by decide)⟩

/-- C3 counterexample: on `hugeBuffer` the actual payload size (2^32) equals
neither endianness reading of the declared length field (both are 0), yet
`Chunk::try_from` does not fail with the length-mismatch error — the
`usize → u32` cast makes the code compare `2^32 % 2^32 = 0` instead. -/
theorem c3_counterexample :
    12 ≤ hugeBuffer.length ∧
    ¬(hugeBuffer.length - 12 = u32_from_be (hugeBuffer.take 4)
      ∨ hugeBuffer.length - 12 = u32_from_le (hugeBuffer.take 4)) ∧
    Chunk.tryFrom hugeBuffer ≠ ParseResult.error "Data does not have the specified length" := by
  have hlen : hugeBuffer.length = 12 + 4294967296 := by
    show ([0, 0, 0, 0] ++
        (rustType.bytes ++ (List.replicate 4294967296 (0 : Nat) ++ [0, 0, 0, 0]))).length =
      12 + 4294967296
    rw [List.length_append, List.length_append, List.length_append, List.length_replicate,
      ChunkType.length_bytes, show ([0, 0, 0, 0] : List Nat).length = 4 from rfl]
  have htake : hugeBuffer.take 4 = [0, 0, 0, 0] :=
    List.take_left' rfl
  refine ⟨by omega, ?_, ?_⟩
  · rw [hlen, htake]
    decide
  · rw [show hugeBuffer =
        [0, 0, 0, 0] ++ (rustType.bytes ++ (List.replicate 4294967296 0 ++ [0, 0, 0, 0]))
        from rfl,
      Chunk.tryFrom_structured rustType [0, 0, 0, 0] (List.replicate 4294967296 0)
        [0, 0, 0, 0] rfl rfl]
    have hc : (List.replicate 4294967296 (0 : Nat)).length % 4294967296 =
        u32_from_be [0, 0, 0, 0] := by
      rw [List.length_replicate]
      decide
    rw [if_neg (not_not_intro (Or.inl hc))]
    split
    · decide
    · exact fun h => ParseResult.noConfusion h

/-- C4 counterexample: a chunk built by `Chunk::new` from a 2^32-byte payload
has `length() = 0`, not the payload byte count — the `usize → u32` cast in
`Chunk::length` truncates. -/
theorem c4_counterexample :
    Chunk.length (Chunk.new rustType (List.replicate 4294967296 0)) = 0 ∧
    Chunk.length (Chunk.new rustType (List.replicate 4294967296 0)) ≠
      (Chunk.new rustType (List.replicate 4294967296 0)).data.length := by
  have hd : (Chunk.new rustType (List.replicate 4294967296 0)).data.length = 4294967296 := by
    show (List.replicate 4294967296 (0 : Nat)).length = 4294967296
    rw [List.length_replicate]
  have h1 : Chunk.length (Chunk.new rustType (List.replicate 4294967296 0)) = 0 := by
    rw [Chunk.length_def, hd, Nat.mod_self]
  exact ⟨h1, by rw [h1, hd]; omega⟩

/-- C4 (amended): `length()` equals the payload byte count whenever the
payload is shorter than 2^32 bytes (in general it is the byte count reduced
mod 2^32, because of the `usize → u32` cast). This covers every chunk value,
whether built by `Chunk::new` or returned by `Chunk::try_from`. -/
theorem c4_length_eq (c : Chunk) (h : c.data.length < 4294967296) :
    Chunk.length c = c.data.length :=
  Nat.mod_eq_of_lt h

/-- C4 witness: at `Chunk::new` of "RuSt" and payload [1, 2, 3]. -/
theorem c4_length_eq_witness :
    (Chunk.new rustType [1, 2, 3]).data.length < 4294967296 ∧
    Chunk.length (Chunk.new rustType [1, 2, 3]) =
      (Chunk.new rustType [1, 2, 3]).data.length :=
  ⟨by decide, c4_length_eq (Chunk.new rustType [1, 2, 3]) (by decide)⟩

/-- C6 counterexample: for a 2^32-byte payload the serialized form has
12 + 2^32 bytes, while `8 + length() + 4 = 12` because `length()` truncates
the payload size to 32 bits. -/
theorem c6_counterexample :
    (Chunk.as_bytes (Chunk.new rustType (List.replicate 4294967296 0))).length ≠
      8 + Chunk.length (Chunk.new rustType (List.replicate 4294967296 0)) + 4 := by
  have hd : (Chunk.new rustType (List.replicate 4294967296 0)).data.length = 4294967296 := by
    show (List.replicate 4294967296 (0 : Nat)).length = 4294967296
    rw [List.length_replicate]
  have h1 : (Chunk.as_bytes (Chunk.new rustType (List.replicate 4294967296 0))).length =
      12 + 4294967296 := by
    rw [length_as_bytes, hd]
  have h2 : Chunk.length (Chunk.new rustType (List.replicate 4294967296 0)) = 0 := by
    rw [Chunk.length_def, hd, Nat.mod_self]
  rw [h1, h2]
  omega

/-- C6 (amended: total size is `8 + payload byte count + 4`, which equals
`8 + length() + 4` whenever the payload is shorter than 2^32 bytes): the
serialization is exactly the 4 big-endian length bytes, then the 4 type-code
bytes, then the raw payload, then the 4 big-endian checksum bytes. -/
theorem c6_as_bytes_layout (c : Chunk) :
    (Chunk.as_bytes c).take 4 = u32_be_bytes (Chunk.length c) ∧
    ((Chunk.as_bytes c).drop 4).take 4 = c.chunk_type.bytes ∧
    ((Chunk.as_bytes c).drop 8).take c.data.length = c.data ∧
    (Chunk.as_bytes c).drop (8 + c.data.length) = u32_be_bytes (Chunk.crc c) ∧
    (Chunk.as_bytes c).length = 8 + c.data.length + 4 := by
  have hb : Chunk.as_bytes c =
      u32_be_bytes (Chunk.length c) ++
        (c.chunk_type.bytes ++ (c.data ++ u32_be_bytes (Chunk.crc c))) := by
    simp [Chunk.as_bytes, List.append_assoc]
  have hdrop4 : (Chunk.as_bytes c).drop 4 =
      c.chunk_type.bytes ++ (c.data ++ u32_be_bytes (Chunk.crc c)) := by
    rw [hb]; exact List.drop_left' (length_u32_be_bytes _)
  have hdrop8 : (Chunk.as_bytes c).drop 8 = c.data ++ u32_be_bytes (Chunk.crc c) := by
    have : (Chunk.as_bytes c).drop 8 = ((Chunk.as_bytes c).drop 4).drop 4 := by
      rw [List.drop_drop]
    rw [this, hdrop4]
    exact List.drop_left' (ChunkType.length_bytes _)
  refine ⟨?_, ?_, ?_, ?_, ?_⟩
  · rw [hb]; exact List.take_left' (length_u32_be_bytes _)
  · rw [hdrop4]; exact List.take_left' (ChunkType.length_bytes _)
  · rw [hdrop8]; exact List.take_left c.data _
  · rw [← List.drop_drop, hdrop8]; exact List.drop_left c.data _
  · rw [length_as_bytes]; omega

/-- C7: `ChunkType::from_str` succeeds exactly on inputs that are 4 bytes,
each an ASCII letter; in particular "Ru1t" (bytes 82,117,49,116) fails while
"Rust" (bytes 82,117,115,116) succeeds even though its reserved bit is
invalid (`is_valid` is false). -/
theorem c7_fromStr_characterization :
    (∀ s : List Nat, (ChunkType.fromStr s).isOk = true ↔
      (s.length = 4 ∧ s.all ChunkType.is_valid_byte = true)) ∧
    (ChunkType.fromStr [82, 117, 49, 116]).isOk = false ∧
    (∃ t, ChunkType.fromStr [82, 117, 115, 116] = Except.ok t ∧
      ChunkType.is_valid t = false) := by
  refine ⟨?_, by decide, ⟨⟨82, 117, 115, 116⟩, rfl, by decide⟩⟩
  intro s
  match s with
  | [] => simp [ChunkType.fromStr, Except.isOk, Except.toBool]
  | [a] => simp [ChunkType.fromStr, Except.isOk, Except.toBool]
  | [a, b] => simp [ChunkType.fromStr, Except.isOk, Except.toBool]
  | [a, b, c] => simp [ChunkType.fromStr, Except.isOk, Except.toBool]
  | a :: b :: c :: d :: e :: rest =>
    simp [ChunkType.fromStr, Except.isOk, Except.toBool]
  | [a, b, c, d] =>
    have heq : (ChunkType.fromStr [a, b, c, d]).isOk =
        (⟨a, b, c, d⟩ : ChunkType).bytes_are_alphanumeric := by
      simp only [ChunkType.fromStr]
      split
      case isTrue h => simp [Except.isOk, Except.toBool, h]
      case isFalse h =>
        simp only [Bool.not_eq_true] at h
        simp [Except.isOk, Except.toBool, h]
    rw [heq]
    simp [ChunkType.bytes_are_alphanumeric, ChunkType.bytes]

/-- C8: `is_valid` is the conjunction of the alphanumeric check and the
reserved-bit check, and it holds exactly when all 4 bytes are ASCII letters
and bit 5 (value 32) of byte 2 is clear. -/
theorem c8_is_valid_characterization (t : ChunkType) :
    ChunkType.is_valid t = (t.bytes_are_alphanumeric && t.is_reserved_bit_valid) ∧
    (ChunkType.is_valid t = true ↔
      ((∀ b ∈ t.bytes, (65 ≤ b ∧ b ≤ 90) ∨ (97 ≤ b ∧ b ≤ 122)) ∧ t.b2 &&& 32 = 0)) := by
  refine ⟨rfl, ?_⟩
  simp [ChunkType.is_valid, ChunkType.bytes_are_alphanumeric,
    ChunkType.is_reserved_bit_valid, ChunkType.is_valid_byte, List.all_eq_true,
    Bool.and_eq_true, Bool.or_eq_true, decide_eq_true_eq, beq_iff_eq]
